import Mathlib

/-
Verification of the windows screen-capture module (src/windows/capture.rs).

The module's two entry points, capture_monitor and capture_window, acquire an
off-screen GDI surface, blit a region of the live desktop into it, and decode
the raw BGRA bytes into a canonical RGBA image (to_rgba_image).  The shallow
embedding below translates those three functions.  Machine integers are
modelled as Int with explicit two's-complement wrapping where the Rust code
performs i32 arithmetic; fallible calls return Except.  External collaborators
(the live desktop contents, GetDIBits scan-line result, BitBlt outcome,
GetSystemMetrics, get_window_rect, get_os_major_version) are supplied by an
environment record, so each capture is a pure function of that environment.
Handle lifecycle (SelectObject / DeleteDC / DeleteObject / ReleaseDC ordering)
is recorded as an explicit event trace.
-/

/-- Canonical RGBA image as produced by RgbaImage::from_raw of the image
crate: the declared dimensions plus the flat byte buffer (bytes as Nat). -/
structure RgbaImage where
  width : Nat
  height : Nat
  buffer : List Nat
  deriving DecidableEq

/-- Two's-complement wrap of an integer into the i32 range, modelling Rust
release-mode wrapping arithmetic on i32 (2147483648 = 2^31). -/
def wrap32 (n : Int) : Int := (n + 2147483648) % 4294967296 - 2147483648

/-- Reinterpretation of an i32 value as u32 (Rust cast to u32). -/
def u32_of_i32 (n : Int) : Nat := (n % 4294967296).toNat

/-- Reinterpretation of an i32 value as a 64-bit usize (Rust cast to usize):
sign-extension to 64 bits followed by reinterpretation. -/
def usize_of_i32 (n : Int) : Nat := (n % 18446744073709551616).toNat

/-- RgbaImage::from_raw of the image crate: succeeds iff the checked usize
computation width * height * 4 does not overflow 64 bits and is at most the
container length; the container is kept whole. -/
def RgbaImage.from_raw (w h : Nat) (buf : List Nat) : Option RgbaImage :=
  if w * h * 4 < 18446744073709551616 ∧ w * h * 4 ≤ buf.length then some ⟨w, h, buf⟩
  else none

/-- The per-pixel conversion loop of to_rgba_image (capture.rs lines 64-70):
for every exact 4-byte chunk, swap bytes 0 and 2 (BGRA to RGBA) and, when the
alpha byte is 0 and the OS major version is below 8, force alpha to 255.  A
trailing chunk of fewer than 4 bytes is left unchanged, as with
chunks_exact_mut. -/
def convertPixels (osMajor : Nat) : List Nat → List Nat
  | b :: g :: r :: a :: rest =>
      r :: g :: b :: (if a = 0 ∧ osMajor < 8 then 255 else a) :: convertPixels osMajor rest
  | rest => rest

/-- GetDIBits writing into the caller's buffer of the given length: the first
bytes come from the device data, and any remaining bytes keep their zero
initialization from vec![0u8; buffer_size]. -/
def takeFill : Nat → List Nat → List Nat
  | 0, _ => []
  | n + 1, [] => 0 :: takeFill n []
  | n + 1, a :: l => a :: takeFill n l

/-- A window rectangle as returned by get_window_rect. -/
structure WinRect where
  left : Int
  top : Int
  right : Int
  bottom : Int
  deriving DecidableEq

/-- GDI resource events recorded by a capture run, in execution order.
Modelled from the spec: the scoped handle wrappers BoxHDC / BoxHBITMAP (their
source is not under src/) release their handle exactly once when dropped
(spec section 4.1); to_rgba_image consumes both boxes, so their releases
happen when it returns, on its error path as on its success path. -/
inductive GdiEvent where
  | createDC (dc : Nat)
  | createBitmap (bmp : Nat) (w h : Int)
  | select (dc obj : Nat)
  | blit (ok : Bool)
  | deleteObject (obj : Nat)
  | deleteDC (dc : Nat)
  | releaseDC (dc : Nat)
  deriving DecidableEq

/-- Handle id of the borrowed desktop-window device context. -/
def desktopDC : Nat := 0

/-- Handle id of the off-screen memory device context (CreateCompatibleDC). -/
def memDC : Nat := 1

/-- Handle id of the capture bitmap (CreateCompatibleBitmap). -/
def captureBitmap : Nat := 2

/-- Handle id of the stock object previously selected in the memory context,
returned by the first SelectObject call. -/
def stockObject : Nat := 3

/-- Handle id of the borrowed target-window device context (window path). -/
def windowDC : Nat := 4

/-- Environment of platform behavior and external collaborators for a capture.
The live desktop contents are fixed: raw x y w h is the byte content of the
off-screen bitmap after the blit of region (x, y, w, h) has been attempted.
Modelled from the spec: get_os_major_version, the GetSystemMetrics primary
display dimensions and get_window_rect are collaborators whose source is not
under src/ (spec section 6); they are simple queries with the listed types. -/
structure GdiEnv where
  osMajor : Nat
  screenW : Int
  screenH : Int
  bitBlt : Int → Int → Int → Int → Except String Unit
  getDIBitsResult : Int → Int → Int
  raw : Int → Int → Int → Int → List Nat
  windowRect : Except String WinRect

/-- Whether an Except value is the ok case (Result::is_ok). -/
def exceptOk : Except String Unit → Bool
  | Except.ok _ => true
  | Except.error _ => false

/-- to_rgba_image (capture.rs lines 24-74): buffer_size is computed as
width * height * 4 in i32 arithmetic; the buffer of buffer_size-as-usize zero
bytes is filled by GetDIBits; a zero scan-line result is an error before any
conversion; otherwise the conversion loop runs and RgbaImage::from_raw builds
the image from the converted buffer.  The second component is the trace of
handle releases performed when the two consumed boxes drop.  The vector
allocation is idealized as total here; to_rgba_image_alloc below refines this
definition with the capacity-overflow abort of vec, and agrees with it
whenever the allocation returns. -/
def to_rgba_image (osMajor : Nat) (scanlines : Int) (raw : List Nat)
    (width height : Int) : Except String RgbaImage × List GdiEvent :=
  let buffer_size := wrap32 (width * height * 4)
  let drops := [GdiEvent.deleteObject captureBitmap, GdiEvent.deleteDC memDC]
  if scanlines = 0 then
    (Except.error "Get RGBA data failed", drops)
  else
    let buffer := convertPixels osMajor (takeFill (usize_of_i32 buffer_size) raw)
    match RgbaImage.from_raw (u32_of_i32 width) (u32_of_i32 height) buffer with
    | some img => (Except.ok img, drops)
    | none => (Except.error "RgbaImage::from_raw failed", drops)

/-- Result of one capture call: the returned value, the trace of GDI events,
and the process-wide DPI-awareness flag after the call. -/
structure CaptureOut where
  result : Except String RgbaImage
  trace : List GdiEvent
  dpiAware : Bool

/-- capture_monitor (capture.rs lines 77-112): SetProcessDPIAware, create the
memory context and bitmap, select the bitmap into the context (the previous
selection is discarded), BitBlt the region with the question-mark operator
propagating a blit failure, then decode.  The boxes drop in reverse
declaration order on both exit paths. -/
def capture_monitor (env : GdiEnv) (dpi : Bool) (x y width height : Int) :
    CaptureOut :=
  let pre := [GdiEvent.createDC memDC,
              GdiEvent.createBitmap captureBitmap width height,
              GdiEvent.select memDC captureBitmap]
  match env.bitBlt x y width height with
  | Except.error e =>
      { result := Except.error e,
        trace := pre ++ [GdiEvent.blit false, GdiEvent.deleteObject captureBitmap,
                         GdiEvent.deleteDC memDC, GdiEvent.releaseDC desktopDC],
        dpiAware := true }
  | Except.ok _ =>
      let dec := to_rgba_image env.osMajor (env.getDIBitsResult width height)
          (env.raw x y width height) width height
      { result := dec.1,
        trace := pre ++ [GdiEvent.blit true] ++ dec.2 ++ [GdiEvent.releaseDC desktopDC],
        dpiAware := true }

/-- Natural width of the window rectangle (i32 subtraction) with the
degenerate-geometry fallback of capture_window lines 122-127: exactly zero is
replaced by the primary display width. -/
def winW (env : GdiEnv) (rect : WinRect) : Int :=
  if wrap32 (rect.right - rect.left) = 0 then env.screenW
  else wrap32 (rect.right - rect.left)

/-- Natural height of the window rectangle (i32 subtraction) with the
degenerate-geometry fallback of capture_window lines 123-130: exactly zero is
replaced by the primary display height. -/
def winH (env : GdiEnv) (rect : WinRect) : Int :=
  if wrap32 (rect.bottom - rect.top) = 0 then env.screenH
  else wrap32 (rect.bottom - rect.top)

/-- capture_window (capture.rs lines 115-170): resolve the window rectangle
(failure propagates after the two borrowed contexts are released), apply the
zero-dimension fallback per axis, scale both dimensions (the f32 multiply and
truncating cast of lines 135-136 is the abstract function scaleApply), create
the memory context and bitmap, select the bitmap retaining the previous
object, BitBlt storing only a success flag that is never read afterwards,
restore the previous object unconditionally, then decode regardless of the
blit outcome. -/
def capture_window (env : GdiEnv) (dpi : Bool) (scaleApply : Int → Int) :
    CaptureOut :=
  match env.windowRect with
  | Except.error e =>
      { result := Except.error e,
        trace := [GdiEvent.releaseDC windowDC, GdiEvent.releaseDC desktopDC],
        dpiAware := true }
  | Except.ok rect =>
      let width := scaleApply (winW env rect)
      let height := scaleApply (winH env rect)
      let is_success := exceptOk (env.bitBlt rect.left rect.top width height)
      let dec := to_rgba_image env.osMajor (env.getDIBitsResult width height)
          (env.raw rect.left rect.top width height) width height
      { result := dec.1,
        trace := [GdiEvent.createDC memDC,
                  GdiEvent.createBitmap captureBitmap width height,
                  GdiEvent.select memDC captureBitmap,
                  GdiEvent.blit is_success,
                  GdiEvent.select memDC stockObject] ++ dec.2 ++
                 [GdiEvent.releaseDC windowDC, GdiEvent.releaseDC desktopDC],
        dpiAware := true }

/-- Checks along a trace that the context dc is never deleted while bmp is
the object currently selected into it; the accumulator is the currently
selected object, none while no select event has been seen. -/
def restoredBeforeDelete (dc bmp : Nat) : Option Nat → List GdiEvent → Bool
  | _, [] => true
  | cur, GdiEvent.select d o :: t =>
      restoredBeforeDelete dc bmp (if d = dc then some o else cur) t
  | cur, GdiEvent.deleteDC d :: t =>
      if d = dc ∧ cur = some bmp then false
      else restoredBeforeDelete dc bmp cur t
  | cur, _ :: t => restoredBeforeDelete dc bmp cur t

/-- to_rgba_image with the vector allocation modelled faithfully: the call
vec with buffer_size as usize elements (capture.rs line 45) aborts with a
capacity-overflow panic when the requested length exceeds the maximum isize
value 9223372036854775807, before GetDIBits runs; none models that abort
(the function does not return at all).  Everything else is identical to
to_rgba_image. -/
def to_rgba_image_alloc (osMajor : Nat) (scanlines : Int) (raw : List Nat)
    (width height : Int) : Option (Except String RgbaImage) :=
  let buffer_size := wrap32 (width * height * 4)
  if 9223372036854775807 < usize_of_i32 buffer_size then none
  else if scanlines = 0 then some (Except.error "Get RGBA data failed")
  else
    let buffer := convertPixels osMajor (takeFill (usize_of_i32 buffer_size) raw)
    match RgbaImage.from_raw (u32_of_i32 width) (u32_of_i32 height) buffer with
    | some img => some (Except.ok img)
    | none => some (Except.error "RgbaImage::from_raw failed")

/-- capture_monitor with the allocation-checked decode: none models a panic
inside the decode stage (the call does not return a value at all), so
`some (Except.ok img)` holds exactly for the calls that successfully return
a canonical image. -/
def capture_monitor_alloc (env : GdiEnv) (dpi : Bool) (x y width height : Int) :
    Option (Except String RgbaImage) :=
  match env.bitBlt x y width height with
  | Except.error e => some (Except.error e)
  | Except.ok _ =>
      to_rgba_image_alloc env.osMajor (env.getDIBitsResult width height)
        (env.raw x y width height) width height

/-- Concrete environment for exercising the window path with a failing blit:
the rectangle resolves to a 2-by-2 region, GetDIBits succeeds, the device
data is empty (the untouched bitmap reads as zero bytes). -/
def envC1 : GdiEnv :=
  { osMajor := 10, screenW := 100, screenH := 100,
    bitBlt := fun _ _ _ _ => Except.error "bitblt failed",
    getDIBitsResult := fun _ _ => 1,
    raw := fun _ _ _ _ => [],
    windowRect := Except.ok ⟨0, 0, 2, 2⟩ }

/-- Concrete environment for a plain successful monitor capture. -/
def envC2 : GdiEnv :=
  { osMajor := 10, screenW := 100, screenH := 100,
    bitBlt := fun _ _ _ _ => Except.ok (),
    getDIBitsResult := fun _ _ => 1,
    raw := fun _ _ _ _ => [],
    windowRect := Except.error "no window" }

/-- Concrete environment whose desktop region reads as 5000 device pixels of
B=30, G=20, R=10, A=255 (the 100 by 50 uniform-fill scenario). -/
def envC4 : GdiEnv :=
  { osMajor := 10, screenW := 100, screenH := 100,
    bitBlt := fun _ _ _ _ => Except.ok (),
    getDIBitsResult := fun _ _ => 1,
    raw := fun _ _ _ _ => List.flatten (List.replicate 5000 [30, 20, 10, 255]),
    windowRect := Except.error "no window" }

/-- Concrete environment whose window rectangle is fully degenerate (zero
width and zero height), with primary display dimensions 3 by 2. -/
def envC6 : GdiEnv :=
  { osMajor := 10, screenW := 3, screenH := 2,
    bitBlt := fun _ _ _ _ => Except.ok (),
    getDIBitsResult := fun _ _ => 1,
    raw := fun _ _ _ _ => [],
    windowRect := Except.ok ⟨0, 0, 0, 0⟩ }

/-- Concrete environment whose GetDIBits call always reports zero scan
lines (pixel-read failure). -/
def envC7 : GdiEnv :=
  { osMajor := 10, screenW := 100, screenH := 100,
    bitBlt := fun _ _ _ _ => Except.ok (),
    getDIBitsResult := fun _ _ => 0,
    raw := fun _ _ _ _ => [],
    windowRect := Except.ok ⟨0, 0, 1, 1⟩ }

/-- Concrete environment whose window rectangle is inverted: left 5, top 0,
right 3, bottom 2, so the natural width is -2. -/
def envC9 : GdiEnv :=
  { osMajor := 10, screenW := 7, screenH := 8,
    bitBlt := fun _ _ _ _ => Except.ok (),
    getDIBitsResult := fun _ _ => 1,
    raw := fun _ _ _ _ => [],
    windowRect := Except.ok ⟨5, 0, 3, 2⟩ }

/-- Concrete environment for a small successful 2 by 1 monitor capture. -/
def envSmall : GdiEnv :=
  { osMajor := 10, screenW := 100, screenH := 100,
    bitBlt := fun _ _ _ _ => Except.ok (),
    getDIBitsResult := fun _ _ => 1,
    raw := fun _ _ _ _ => [],
    windowRect := Except.error "no window" }

theorem takeFill_length : ∀ (n : Nat) (l : List Nat), (takeFill n l).length = n
  | 0, _ => rfl
  | n + 1, [] => by simp [takeFill, takeFill_length n []]
  | n + 1, _ :: l => by simp [takeFill, takeFill_length n l]

theorem takeFill_eq_self : ∀ (l : List Nat), takeFill l.length l = l
  | [] => rfl
  | a :: l => by simp [takeFill, takeFill_eq_self l]

theorem convertPixels_length (os : Nat) :
    ∀ l : List Nat, (convertPixels os l).length = l.length
  | [] => rfl
  | [_] => rfl
  | [_, _] => rfl
  | [_, _, _] => rfl
  | _ :: _ :: _ :: _ :: t => by
      simp [convertPixels, convertPixels_length os t]

theorem length_join_replicate (n : Nat) (l : List Nat) :
    (List.flatten (List.replicate n l)).length = n * l.length := by
  induction n with
  | zero => simp
  | succ n ih => simp [List.replicate_succ, ih, Nat.succ_mul]; omega

theorem convertPixels_join_replicate (os n : Nat) :
    convertPixels os (List.flatten (List.replicate n [30, 20, 10, 255])) =
      List.flatten (List.replicate n [10, 20, 30, 255]) := by
  induction n with
  | zero => rfl
  | succ n ih => simp [List.replicate_succ, convertPixels, ih]


theorem getD_cons_four (x1 x2 x3 x4 : Nat) (l : List Nat) (n : Nat) :
    (x1 :: x2 :: x3 :: x4 :: l).getD (n + 1 + 1 + 1 + 1) 0 = l.getD n 0 := by
  simp [List.getD_cons_succ]

theorem convertPixels_getD_chunk (os : Nat) :
    ∀ (i : Nat) (l : List Nat), 4 * i + 3 < l.length →
      (convertPixels os l).getD (4 * i) 0 = l.getD (4 * i + 2) 0 ∧
      (convertPixels os l).getD (4 * i + 1) 0 = l.getD (4 * i + 1) 0 ∧
      (convertPixels os l).getD (4 * i + 2) 0 = l.getD (4 * i) 0 ∧
      (convertPixels os l).getD (4 * i + 3) 0 =
        (if l.getD (4 * i + 3) 0 = 0 ∧ os < 8 then 255 else l.getD (4 * i + 3) 0) := by
  intro i
  induction i with
  | zero =>
    intro l h
    rcases l with _ | ⟨b, l⟩
    · simp only [List.length_cons, List.length_nil] at h; omega
    rcases l with _ | ⟨g, l⟩
    · simp only [List.length_cons, List.length_nil] at h; omega
    rcases l with _ | ⟨r, l⟩
    · simp only [List.length_cons, List.length_nil] at h; omega
    rcases l with _ | ⟨a, t⟩
    · simp only [List.length_cons, List.length_nil] at h; omega
    exact ⟨rfl, rfl, rfl, rfl⟩
  | succ i ih =>
    intro l h
    rcases l with _ | ⟨b, l⟩
    · simp only [List.length_cons, List.length_nil] at h; omega
    rcases l with _ | ⟨g, l⟩
    · simp only [List.length_cons, List.length_nil] at h; omega
    rcases l with _ | ⟨r, l⟩
    · simp only [List.length_cons, List.length_nil] at h; omega
    rcases l with _ | ⟨a, t⟩
    · simp only [List.length_cons, List.length_nil] at h; omega
    have ht : 4 * i + 3 < t.length := by
      simp only [List.length_cons] at h; omega
    obtain ⟨h1, h2, h3, h4⟩ := ih t ht
    have hunf : convertPixels os (b :: g :: r :: a :: t) =
        r :: g :: b :: (if a = 0 ∧ os < 8 then 255 else a) :: convertPixels os t := rfl
    refine ⟨?_, ?_, ?_, ?_⟩
    · show (convertPixels os (b :: g :: r :: a :: t)).getD (4 * i + 1 + 1 + 1 + 1) 0 =
        (b :: g :: r :: a :: t).getD (4 * i + 2 + 1 + 1 + 1 + 1) 0
      rw [hunf, getD_cons_four, getD_cons_four]
      exact h1
    · show (convertPixels os (b :: g :: r :: a :: t)).getD (4 * i + 1 + 1 + 1 + 1 + 1) 0 =
        (b :: g :: r :: a :: t).getD (4 * i + 1 + 1 + 1 + 1 + 1) 0
      rw [hunf]
      rw [show 4 * i + 1 + 1 + 1 + 1 + 1 = 4 * i + 1 + 1 + 1 + 1 + 1 from rfl]
      rw [getD_cons_four, getD_cons_four]
      exact h2
    · show (convertPixels os (b :: g :: r :: a :: t)).getD (4 * i + 2 + 1 + 1 + 1 + 1) 0 =
        (b :: g :: r :: a :: t).getD (4 * i + 1 + 1 + 1 + 1) 0
      rw [hunf, getD_cons_four, getD_cons_four]
      exact h3
    · show (convertPixels os (b :: g :: r :: a :: t)).getD (4 * i + 3 + 1 + 1 + 1 + 1) 0 =
        (if (b :: g :: r :: a :: t).getD (4 * i + 3 + 1 + 1 + 1 + 1) 0 = 0 ∧ os < 8 then 255
         else (b :: g :: r :: a :: t).getD (4 * i + 3 + 1 + 1 + 1 + 1) 0)
      rw [hunf, getD_cons_four, getD_cons_four]
      exact h4

theorem wrap32_eq_self (n : Int) (h1 : -2147483648 ≤ n) (h2 : n < 2147483648) :
    wrap32 n = n := by
  unfold wrap32; omega

theorem u32_of_i32_eq (n : Int) (h1 : 0 ≤ n) (h2 : n < 4294967296) :
    u32_of_i32 n = n.toNat := by
  unfold u32_of_i32; omega

theorem usize_of_i32_eq (n : Int) (h1 : 0 ≤ n) (h2 : n < 18446744073709551616) :
    usize_of_i32 n = n.toNat := by
  unfold usize_of_i32; omega

theorem to_rgba_image_trace (os : Nat) (sc : Int) (raw : List Nat)
    (w h : Int) :
    (to_rgba_image os sc raw w h).2 =
      [GdiEvent.deleteObject captureBitmap, GdiEvent.deleteDC memDC] := by
  simp only [to_rgba_image]
  split
  · rfl
  · split <;> rfl

theorem to_rgba_image_scanzero (os : Nat) (raw : List Nat) (w h : Int) :
    (to_rgba_image os 0 raw w h).1 = Except.error "Get RGBA data failed" := by
  simp [to_rgba_image]

theorem to_rgba_image_ok (os : Nat) (sc : Int) (raw : List Nat) (w h : Int)
    (hsc : sc ≠ 0)
    (hfit : u32_of_i32 w * u32_of_i32 h * 4 < 18446744073709551616 ∧
      u32_of_i32 w * u32_of_i32 h * 4 ≤ usize_of_i32 (wrap32 (w * h * 4))) :
    (to_rgba_image os sc raw w h).1 =
      Except.ok ⟨u32_of_i32 w, u32_of_i32 h,
        convertPixels os (takeFill (usize_of_i32 (wrap32 (w * h * 4))) raw)⟩ := by
  have hlen : (convertPixels os (takeFill (usize_of_i32 (wrap32 (w * h * 4))) raw)).length =
      usize_of_i32 (wrap32 (w * h * 4)) := by
    rw [convertPixels_length, takeFill_length]
  simp only [to_rgba_image, RgbaImage.from_raw]
  rw [if_neg hsc, hlen, if_pos hfit]

theorem to_rgba_image_ok_inv (os : Nat) (sc : Int) (raw : List Nat)
    (w h : Int) (img : RgbaImage)
    (hok : (to_rgba_image os sc raw w h).1 = Except.ok img) :
    img.width = u32_of_i32 w ∧ img.height = u32_of_i32 h ∧
      img.buffer.length = usize_of_i32 (wrap32 (w * h * 4)) := by
  simp only [to_rgba_image, RgbaImage.from_raw] at hok
  by_cases hsc : sc = 0
  · rw [if_pos hsc] at hok
    simp at hok
  · rw [if_neg hsc] at hok
    split at hok
    · rename_i imgm heq
      have hi : imgm = img := Except.ok.inj hok
      subst hi
      split at heq
      · have h2 := Option.some.inj heq
        rw [← h2]
        refine ⟨rfl, rfl, ?_⟩
        simp [convertPixels_length, takeFill_length]
      · cases heq
    · simp at hok

theorem capture_monitor_blitfail (env : GdiEnv) (dpi : Bool) (x y w h : Int)
    (e : String) (hb : env.bitBlt x y w h = Except.error e) :
    (capture_monitor env dpi x y w h).result = Except.error e := by
  simp only [capture_monitor, hb]

theorem capture_monitor_blitok (env : GdiEnv) (dpi : Bool) (x y w h : Int)
    (hb : env.bitBlt x y w h = Except.ok ()) :
    (capture_monitor env dpi x y w h).result =
      (to_rgba_image env.osMajor (env.getDIBitsResult w h)
        (env.raw x y w h) w h).1 := by
  simp only [capture_monitor, hb]

theorem capture_window_rectfail (env : GdiEnv) (dpi : Bool) (s : Int → Int)
    (e : String) (hr : env.windowRect = Except.error e) :
    (capture_window env dpi s).result = Except.error e := by
  simp only [capture_window, hr]

theorem capture_window_result_ok (env : GdiEnv) (dpi : Bool) (s : Int → Int)
    (rect : WinRect) (hr : env.windowRect = Except.ok rect) :
    (capture_window env dpi s).result =
      (to_rgba_image env.osMajor
        (env.getDIBitsResult (s (winW env rect)) (s (winH env rect)))
        (env.raw rect.left rect.top (s (winW env rect)) (s (winH env rect)))
        (s (winW env rect)) (s (winH env rect))).1 := by
  simp only [capture_window, hr]

theorem capture_window_trace_ok (env : GdiEnv) (dpi : Bool) (s : Int → Int)
    (rect : WinRect) (hr : env.windowRect = Except.ok rect) :
    (capture_window env dpi s).trace =
      [GdiEvent.createDC memDC,
       GdiEvent.createBitmap captureBitmap (s (winW env rect)) (s (winH env rect)),
       GdiEvent.select memDC captureBitmap,
       GdiEvent.blit (exceptOk (env.bitBlt rect.left rect.top
         (s (winW env rect)) (s (winH env rect)))),
       GdiEvent.select memDC stockObject,
       GdiEvent.deleteObject captureBitmap, GdiEvent.deleteDC memDC,
       GdiEvent.releaseDC windowDC, GdiEvent.releaseDC desktopDC] := by
  simp [capture_window, hr, to_rgba_image_trace]

/-- C3: during pixel decode, for every 4-byte pixel group, an alpha byte
(byte 3, unchanged by the byte swap of bytes 0 and 2) equal to 0 is rewritten
to 255 when the detected OS major version is strictly below 8, and is
preserved unchanged when the OS major version is 8 or greater. -/
theorem C3_alpha_zero_compensation (os : Nat) (l : List Nat) (i : Nat)
    (h : 4 * i + 3 < l.length) :
    (l.getD (4 * i + 3) 0 = 0 → os < 8 →
      (convertPixels os l).getD (4 * i + 3) 0 = 255) ∧
    (l.getD (4 * i + 3) 0 = 0 → 8 ≤ os →
      (convertPixels os l).getD (4 * i + 3) 0 = 0) := by
  have hc := (convertPixels_getD_chunk os i l h).2.2.2
  constructor
  · intro h0 hlt
    rw [hc, if_pos ⟨h0, hlt⟩]
  · intro h0 hge
    rw [hc, if_neg, h0]
    intro hand
    omega

/-- C3 witness: on a 7-major OS an alpha byte 0 becomes 255, on a 9-major OS
it stays 0. -/
theorem C3_alpha_zero_compensation_witness :
    (convertPixels 7 [1, 2, 3, 0]).getD 3 0 = 255 ∧
    (convertPixels 9 [1, 2, 3, 0]).getD 3 0 = 0 :=
  ⟨(C3_alpha_zero_compensation 7 [1, 2, 3, 0] 0 (by decide)).1 (by decide) (by decide),
   (C3_alpha_zero_compensation 9 [1, 2, 3, 0] 0 (by decide)).2 (by decide) (by decide)⟩

/-- C4: the decode conversion maps each 4-byte device pixel B,G,R,A to
R,G,B,A by swapping bytes 0 and 2, independently per pixel (with the
alpha-zero rule on byte 3); and a 100 by 50 monitor capture of a surface
uniformly filled with device bytes B=30, G=20, R=10, A=255 yields the 100 by
50 image whose every pixel is 10,20,30,255 in output order. -/
theorem C4_bgra_byte_swap :
    (∀ (os : Nat) (l : List Nat) (i : Nat), 4 * i + 3 < l.length →
      (convertPixels os l).getD (4 * i) 0 = l.getD (4 * i + 2) 0 ∧
      (convertPixels os l).getD (4 * i + 1) 0 = l.getD (4 * i + 1) 0 ∧
      (convertPixels os l).getD (4 * i + 2) 0 = l.getD (4 * i) 0 ∧
      (convertPixels os l).getD (4 * i + 3) 0 =
        (if l.getD (4 * i + 3) 0 = 0 ∧ os < 8 then 255 else l.getD (4 * i + 3) 0)) ∧
    (capture_monitor envC4 true 0 0 100 50).result =
      Except.ok ⟨100, 50, List.flatten (List.replicate 5000 [10, 20, 30, 255])⟩ := by
  constructor
  · exact fun os l i h => convertPixels_getD_chunk os i l h
  · rw [capture_monitor_blitok envC4 true 0 0 100 50 rfl]
    show (to_rgba_image 10 1
      (List.flatten (List.replicate 5000 [30, 20, 10, 255])) 100 50).1 = _
    rw [to_rgba_image_ok 10 1 _ 100 50 (by decide) (by decide)]
    have hu : usize_of_i32 (wrap32 ((100 : Int) * 50 * 4)) = 20000 := by decide
    rw [hu]
    have hlen : (List.flatten (List.replicate 5000 ([30, 20, 10, 255] : List Nat))).length
        = 20000 := by
      rw [length_join_replicate]
      rfl
    rw [← hlen, takeFill_eq_self, convertPixels_join_replicate]
    rfl

/-- C4 witness: the swap property applied to the single device pixel
30,20,10,255. -/
theorem C4_bgra_byte_swap_witness :
    (convertPixels 10 [30, 20, 10, 255]).getD 0 0 = 10 ∧
    (convertPixels 10 [30, 20, 10, 255]).getD 1 0 = 20 ∧
    (convertPixels 10 [30, 20, 10, 255]).getD 2 0 = 30 := by
  obtain ⟨h1, h2, h3, _⟩ := C4_bgra_byte_swap.1 10 [30, 20, 10, 255] 0 (by decide)
  exact ⟨h1, h2, h3⟩

/-- C7: a zero return from GetDIBits makes the decode step return the error
"Get RGBA data failed" without reaching the conversion, and when the
environment reports zero scan lines neither capture entry point can return a
canonical image. -/
theorem C7_read_failure_aborts (os : Nat) (raw : List Nat) (w h : Int)
    (env : GdiEnv) (dpi : Bool) (x y : Int) (s : Int → Int) :
    (to_rgba_image os 0 raw w h).1 = Except.error "Get RGBA data failed" ∧
    ((∀ a b : Int, env.getDIBitsResult a b = 0) →
      (∀ img : RgbaImage,
        (capture_monitor env dpi x y w h).result ≠ Except.ok img) ∧
      (∀ img : RgbaImage,
        (capture_window env dpi s).result ≠ Except.ok img)) := by
  refine ⟨to_rgba_image_scanzero os raw w h, fun hz => ⟨?_, ?_⟩⟩
  · intro img hok
    rcases hb : env.bitBlt x y w h with e | ⟨⟩
    · rw [capture_monitor_blitfail env dpi x y w h e hb] at hok
      simp at hok
    · rw [capture_monitor_blitok env dpi x y w h hb] at hok
      rw [hz w h, to_rgba_image_scanzero] at hok
      simp at hok
  · intro img hok
    rcases hr : env.windowRect with e | rect
    · rw [capture_window_rectfail env dpi s e hr] at hok
      simp at hok
    · rw [capture_window_result_ok env dpi s rect hr] at hok
      rw [hz _ _, to_rgba_image_scanzero] at hok
      simp at hok

/-- C7 witness: the decode error at a concrete input and a monitor capture
that cannot return an image when GetDIBits reports zero scan lines. -/
theorem C7_read_failure_aborts_witness :
    (to_rgba_image 10 0 [] 2 2).1 = Except.error "Get RGBA data failed" ∧
    (capture_monitor envC7 true 0 0 1 1).result ≠
      Except.ok ⟨1, 1, List.replicate 4 0⟩ := by
  refine ⟨(C7_read_failure_aborts 10 [] 2 2 envC7 true 0 0 (fun n => n)).1, ?_⟩
  exact ((C7_read_failure_aborts 10 [] 2 2 envC7 true 0 0 (fun n => n)).2
    (fun _ _ => rfl)).1 ⟨1, 1, List.replicate 4 0⟩

/-- C8: with the display contents, inputs and OS version fixed by the
environment, two sequential capture_monitor calls on the same region (the
second starting from the DPI-awareness state the first left behind) return
identical results; the capture threads no other state between calls. -/
theorem C8_sequential_captures_identical (env : GdiEnv) (dpi : Bool)
    (x y w h : Int) :
    (capture_monitor env dpi x y w h).result =
      (capture_monitor env (capture_monitor env dpi x y w h).dpiAware
        x y w h).result := rfl

/-- C1 counterexample: with a failing blit and an otherwise healthy
environment, capture_window still returns a canonical image (the decoded
zero-filled bitmap), not an error, refuting the claim that a failed transfer
always surfaces an error and returns no image. -/
theorem C1_counterexample :
    envC1.bitBlt 0 0 2 2 = Except.error "bitblt failed" ∧
    (capture_window envC1 true (fun n => n)).result =
      Except.ok ⟨2, 2, List.replicate 16 0⟩ :=
  ⟨rfl, rfl⟩

/-- C1 corrected: when the blit fails in capture_window, the previously
selected drawing object is still restored into the off-screen context before
the context is released, but the failure itself is not surfaced: the call
proceeds to decode the bitmap and returns the decode result, which can be a
canonical image. -/
theorem C1_blit_failure_restores_but_not_surfaced (env : GdiEnv)
    (dpi : Bool) (s : Int → Int) (rect : WinRect) (e : String)
    (hr : env.windowRect = Except.ok rect)
    (hb : env.bitBlt rect.left rect.top (s (winW env rect)) (s (winH env rect)) =
      Except.error e) :
    restoredBeforeDelete memDC captureBitmap none
      (capture_window env dpi s).trace = true ∧
    (capture_window env dpi s).result =
      (to_rgba_image env.osMajor
        (env.getDIBitsResult (s (winW env rect)) (s (winH env rect)))
        (env.raw rect.left rect.top (s (winW env rect)) (s (winH env rect)))
        (s (winW env rect)) (s (winH env rect))).1 := by
  constructor
  · rw [capture_window_trace_ok env dpi s rect hr]
    simp [restoredBeforeDelete, memDC, captureBitmap, stockObject]
  · exact capture_window_result_ok env dpi s rect hr

/-- C1 witness: the corrected statement at the concrete failing-blit
environment. -/
theorem C1_blit_failure_restores_but_not_surfaced_witness :
    restoredBeforeDelete memDC captureBitmap none
      (capture_window envC1 true (fun n => n)).trace = true ∧
    (capture_window envC1 true (fun n => n)).result =
      (to_rgba_image 10 1 [] 2 2).1 :=
  C1_blit_failure_restores_but_not_surfaced envC1 true (fun n => n)
    ⟨0, 0, 2, 2⟩ "bitblt failed" rfl rfl

/-- C2 counterexample: in a plain successful monitor capture the memory
context is deleted while the capture bitmap is still the selected object
(the SelectObject return value is discarded and never restored), refuting
the claim for the capture_monitor path. -/
theorem C2_counterexample :
    GdiEvent.deleteDC memDC ∈ (capture_monitor envC2 true 0 0 1 1).trace ∧
    restoredBeforeDelete memDC captureBitmap none
      (capture_monitor envC2 true 0 0 1 1).trace = false := by
  constructor
  · decide
  · decide

/-- C2 corrected: capture_window restores the previously selected drawing
object into the off-screen context before the context is released, on
success and on every error path; capture_monitor never restores it, and on
every run releases the context while the capture bitmap is still selected. -/
theorem C2_restore_before_release (env : GdiEnv) (dpi : Bool) (s : Int → Int)
    (x y w h : Int) :
    restoredBeforeDelete memDC captureBitmap none
      (capture_window env dpi s).trace = true ∧
    restoredBeforeDelete memDC captureBitmap none
      (capture_monitor env dpi x y w h).trace = false := by
  constructor
  · rcases hr : env.windowRect with e | rect
    · simp [capture_window, hr, restoredBeforeDelete]
    · rw [capture_window_trace_ok env dpi s rect hr]
      simp [restoredBeforeDelete, memDC, captureBitmap, stockObject]
  · rcases hb : env.bitBlt x y w h with e | ⟨⟩
    · simp [capture_monitor, hb, restoredBeforeDelete, memDC, captureBitmap,
        desktopDC]
    · simp [capture_monitor, hb, to_rgba_image_trace, restoredBeforeDelete,
        memDC, captureBitmap, desktopDC]

/-- C6: when the resolved window rectangle has zero natural width or zero
natural height, the primary display's width or height respectively is
substituted independently per axis, and a successful capture's image
dimensions are the scaled substituted dimensions. -/
theorem C6_zero_dimension_fallback (env : GdiEnv) (dpi : Bool)
    (s : Int → Int) (rect : WinRect) (img : RgbaImage)
    (hr : env.windowRect = Except.ok rect)
    (hok : (capture_window env dpi s).result = Except.ok img) :
    (wrap32 (rect.right - rect.left) = 0 →
      img.width = u32_of_i32 (s env.screenW)) ∧
    (wrap32 (rect.bottom - rect.top) = 0 →
      img.height = u32_of_i32 (s env.screenH)) := by
  rw [capture_window_result_ok env dpi s rect hr] at hok
  obtain ⟨hw, hh, _⟩ := to_rgba_image_ok_inv _ _ _ _ _ img hok
  constructor
  · intro h0
    rw [hw]
    unfold winW
    rw [if_pos h0]
  · intro h0
    rw [hh]
    unfold winH
    rw [if_pos h0]

/-- C6 witness: a fully degenerate rectangle on a 3 by 2 primary display
yields a 3 by 2 image with unit scale. -/
theorem C6_zero_dimension_fallback_witness :
    (⟨3, 2, List.replicate 24 0⟩ : RgbaImage).width = u32_of_i32 3 ∧
    (⟨3, 2, List.replicate 24 0⟩ : RgbaImage).height = u32_of_i32 2 := by
  have h := C6_zero_dimension_fallback envC6 true (fun n => n) ⟨0, 0, 0, 0⟩
    ⟨3, 2, List.replicate 24 0⟩ rfl (by rfl)
  exact ⟨h.1 (by decide), h.2 (by decide)⟩

/-- C9: the degenerate-geometry fallback triggers only on a natural
dimension of exactly 0; an inverted rectangle gives a negative natural
width or height that is kept (not replaced by the display dimension) and is
passed, after scaling, to bitmap creation and to the decode stage. -/
theorem C9_negative_dimension_not_substituted (env : GdiEnv) (dpi : Bool)
    (s : Int → Int) (rect : WinRect)
    (hr : env.windowRect = Except.ok rect) :
    ((rect.right < rect.left → -2147483648 ≤ rect.right - rect.left →
        winW env rect = rect.right - rect.left ∧ winW env rect < 0) ∧
     (rect.bottom < rect.top → -2147483648 ≤ rect.bottom - rect.top →
        winH env rect = rect.bottom - rect.top ∧ winH env rect < 0)) ∧
    GdiEvent.createBitmap captureBitmap (s (winW env rect)) (s (winH env rect)) ∈
      (capture_window env dpi s).trace ∧
    (capture_window env dpi s).result =
      (to_rgba_image env.osMajor
        (env.getDIBitsResult (s (winW env rect)) (s (winH env rect)))
        (env.raw rect.left rect.top (s (winW env rect)) (s (winH env rect)))
        (s (winW env rect)) (s (winH env rect))).1 := by
  refine ⟨⟨?_, ?_⟩, ?_, capture_window_result_ok env dpi s rect hr⟩
  · intro hlt hge
    have hww : wrap32 (rect.right - rect.left) = rect.right - rect.left :=
      wrap32_eq_self _ hge (by omega)
    have hne : wrap32 (rect.right - rect.left) ≠ 0 := by
      rw [hww]; omega
    unfold winW
    rw [if_neg hne, hww]
    exact ⟨rfl, by omega⟩
  · intro hlt hge
    have hww : wrap32 (rect.bottom - rect.top) = rect.bottom - rect.top :=
      wrap32_eq_self _ hge (by omega)
    have hne : wrap32 (rect.bottom - rect.top) ≠ 0 := by
      rw [hww]; omega
    unfold winH
    rw [if_neg hne, hww]
    exact ⟨rfl, by omega⟩
  · rw [capture_window_trace_ok env dpi s rect hr]
    simp

/-- C9 witness: the inverted rectangle with left 5, right 3 keeps natural
width -2, and -2 is the width passed to bitmap creation. -/
theorem C9_negative_dimension_not_substituted_witness :
    winW envC9 ⟨5, 0, 3, 2⟩ = (3 : Int) - 5 ∧
    GdiEvent.createBitmap captureBitmap (-2) 2 ∈
      (capture_window envC9 true (fun n => n)).trace := by
  have h := C9_negative_dimension_not_substituted envC9 true (fun n => n)
    ⟨5, 0, 3, 2⟩ rfl
  exact ⟨(h.1.1 (by decide) (by decide)).1, h.2.1⟩

/-- C10: the decode buffer size is width * height * 4 in wrapping 32-bit
signed arithmetic, so for a successful decode the buffer-length invariant
holds exactly when the product fits below 2^31, and necessarily fails for
every in-range width and height whose product reaches 2^31. -/
theorem C10_buffer_size_i32_overflow (os : Nat) (sc : Int) (raw : List Nat)
    (w h : Int) (hw : 0 < w) (hh : 0 < h)
    (hwb : w < 2147483648) (hhb : h < 2147483648) :
    (w * h * 4 < 2147483648 →
      ∀ img : RgbaImage, (to_rgba_image os sc raw w h).1 = Except.ok img →
        img.buffer.length = (w * h * 4).toNat) ∧
    (2147483648 ≤ w * h * 4 →
      ∀ img : RgbaImage, (to_rgba_image os sc raw w h).1 = Except.ok img →
        img.buffer.length ≠ (w * h * 4).toNat) := by
  have hpos : (0 : Int) < w * h * 4 := by positivity
  constructor
  · intro hfit img hok
    obtain ⟨_, _, h3⟩ := to_rgba_image_ok_inv _ _ _ _ _ img hok
    rw [h3, wrap32_eq_self _ (by linarith) hfit,
      usize_of_i32_eq _ (le_of_lt hpos) (by linarith)]
  · intro hbig img hok
    obtain ⟨_, _, h3⟩ := to_rgba_image_ok_inv _ _ _ _ _ img hok
    rw [h3]
    have hub : w * h * 4 ≤ 2147483647 * 2147483647 * 4 := by
      have hw1 : w ≤ 2147483647 := by omega
      have hh1 : h ≤ 2147483647 := by omega
      have hmul : w * h ≤ 2147483647 * 2147483647 :=
        mul_le_mul hw1 hh1 (le_of_lt hh) (by norm_num)
      linarith
    generalize hd : w * h * 4 = d at hbig hub
    unfold usize_of_i32 wrap32
    omega

/-- C10 witness: the in-range half at a small successful 2 by 1 decode. -/
theorem C10_buffer_size_i32_overflow_witness :
    (⟨2, 1, List.replicate 8 0⟩ : RgbaImage).buffer.length =
      ((2 : Int) * 1 * 4).toNat :=
  (C10_buffer_size_i32_overflow 10 1 [] 2 1 (by decide) (by decide)
    (by decide) (by decide)).1 (by decide) ⟨2, 1, List.replicate 8 0⟩ (by rfl)

theorem to_rgba_image_alloc_refines (os : Nat) (sc : Int) (raw : List Nat)
    (w h : Int) (r : Except String RgbaImage)
    (ha : to_rgba_image_alloc os sc raw w h = some r) :
    (to_rgba_image os sc raw w h).1 = r := by
  simp only [to_rgba_image_alloc] at ha
  simp only [to_rgba_image]
  split at ha
  · simp at ha
  · split at ha
    · rename_i hsc
      rw [if_pos hsc]
      exact Option.some.inj ha
    · rename_i hsc
      rw [if_neg hsc]
      split at ha
      · exact Option.some.inj ha
      · exact Option.some.inj ha

theorem capture_monitor_alloc_refines (env : GdiEnv) (dpi : Bool)
    (x y w h : Int) (r : Except String RgbaImage)
    (ha : capture_monitor_alloc env dpi x y w h = some r) :
    (capture_monitor env dpi x y w h).result = r := by
  rcases hb : env.bitBlt x y w h with e | ⟨⟩
  · simp only [capture_monitor_alloc, hb] at ha
    rw [capture_monitor_blitfail env dpi x y w h e hb]
    exact Option.some.inj ha
  · simp only [capture_monitor_alloc, hb] at ha
    rw [capture_monitor_blitok env dpi x y w h hb]
    exact to_rgba_image_alloc_refines _ _ _ _ _ r ha

/-- C5: for every positive i32 width and height, a capture_monitor call that
successfully returns (allocation modelled faithfully: a buffer request above
the isize maximum aborts and returns nothing) yields an image whose declared
width and height equal the inputs and whose buffer length equals
width * height * 4.  When the i32 product wraps negative the allocation
aborts, and when it wraps nonnegative the undersized buffer makes from_raw
fail, so no successful call escapes the invariant. -/
theorem C5_monitor_success_length_invariant (env : GdiEnv) (dpi : Bool)
    (x y w h : Int) (img : RgbaImage)
    (hw : 0 < w) (hh : 0 < h) (hwb : w < 2147483648) (hhb : h < 2147483648)
    (hok : capture_monitor_alloc env dpi x y w h = some (Except.ok img)) :
    img.width = w.toNat ∧ img.height = h.toNat ∧
      img.buffer.length = w.toNat * h.toNat * 4 := by
  have hpos : (0 : Int) < w * h * 4 := by positivity
  have hw32 : u32_of_i32 w = w.toNat := u32_of_i32_eq w (le_of_lt hw) (by linarith)
  have hh32 : u32_of_i32 h = h.toNat := u32_of_i32_eq h (le_of_lt hh) (by linarith)
  have hcastI : ((w * h * 4).toNat : Int) = ((w.toNat * h.toNat * 4 : Nat) : Int) := by
    rw [Int.toNat_of_nonneg (le_of_lt hpos)]
    push_cast
    rw [Int.toNat_of_nonneg (le_of_lt hw), Int.toNat_of_nonneg (le_of_lt hh)]
  have hcastN : (w * h * 4).toNat = w.toNat * h.toNat * 4 := by exact_mod_cast hcastI
  have hub : w * h * 4 ≤ 2147483647 * 2147483647 * 4 := by
    have hw1 : w ≤ 2147483647 := by omega
    have hh1 : h ≤ 2147483647 := by omega
    have hmul : w * h ≤ 2147483647 * 2147483647 :=
      mul_le_mul hw1 hh1 (le_of_lt hh) (by norm_num)
    linarith
  rcases hb : env.bitBlt x y w h with e | ⟨⟩
  · simp only [capture_monitor_alloc, hb] at hok
    simp at hok
  · simp only [capture_monitor_alloc, hb] at hok
    simp only [to_rgba_image_alloc, RgbaImage.from_raw] at hok
    split at hok
    · simp at hok
    · rename_i halloc
      split at hok
      · simp at hok
      · split at hok
        · rename_i imgm heq
          have hi : imgm = img := Except.ok.inj (Option.some.inj hok)
          subst hi
          split at heq
          · rename_i hcond
            have h2 := Option.some.inj heq
            rw [← h2]
            refine ⟨hw32, hh32, ?_⟩
            show (convertPixels env.osMajor
              (takeFill (usize_of_i32 (wrap32 (w * h * 4)))
                (env.raw x y w h))).length = w.toNat * h.toNat * 4
            rw [convertPixels_length, takeFill_length, ← hcastN]
            obtain ⟨_, hle⟩ := hcond
            rw [convertPixels_length, takeFill_length, hw32, hh32, ← hcastN] at hle
            have halloc2 : usize_of_i32 (wrap32 (w * h * 4)) ≤ 9223372036854775807 :=
              Nat.le_of_not_lt halloc
            generalize hd : w * h * 4 = d at hle halloc2 hub hpos ⊢
            unfold usize_of_i32 wrap32 at hle halloc2 ⊢
            omega
          · cases heq
        · simp at hok

/-- C5 witness: the invariant at a small successful 2 by 1 capture. -/
theorem C5_monitor_success_length_invariant_witness :
    (⟨2, 1, List.replicate 8 0⟩ : RgbaImage).width = (2 : Int).toNat ∧
    (⟨2, 1, List.replicate 8 0⟩ : RgbaImage).height = (1 : Int).toNat ∧
    (⟨2, 1, List.replicate 8 0⟩ : RgbaImage).buffer.length =
      (2 : Int).toNat * (1 : Int).toNat * 4 :=
  C5_monitor_success_length_invariant envSmall true 0 0 2 1
    ⟨2, 1, List.replicate 8 0⟩ (by decide) (by decide) (by decide) (by decide)
    (by rfl)
